import Mathlib

/-!
Shallow embedding of the name-resolution and index-consistency engine of the
MCP component-harvester server (`src/index.ts`, current revision).

The embedding models:
  * the display-name normalization pipeline used by `scan_aceternity_component`,
    `scan_shadcn_component`, `get_shadcn_component_prompt` and
    `get_aceternity_component_prompt` (lowercase, split on `[\s.-]+`,
    capitalise each segment, join with spaces, then strip whitespace and `[.-]`);
  * the registry-cache refresh functions `refreshAceternityRegistryCache` and
    `refreshShadcnRegistryCache` (axios fetch outcome passed in explicitly);
  * the index store: `loadIndexIntoMemoryCache`, and the read-merge-write
    update of `harvested_index.json` performed inline by both scan handlers;
  * the tool handlers `scan_aceternity_component`, `scan_shadcn_component`
    and `get_shadcn_component_prompt`.

Modelling conventions: JavaScript objects used as string-keyed dictionaries
become association lists preserving insertion order (assignment to an existing
key updates in place, a fresh key is appended — the enumeration-order
behaviour of V8 string keys); file-system and network effects are passed in as
explicit outcome parameters (`Except String _`), a failed write leaving the
file unchanged; JSON round-tripping of plain records is the identity, so the
durable index file is carried in parsed form, with a `corrupt` state for
contents that `JSON.parse` rejects; paths are relative to the server's `data`
directory, matching the `path.relative(baseDataDir, ...)` values the code
stores.
-/

/-- Separator class of the regexes `[\s.-]+`, `/\s+/` and `/[.-]/` used by the
normalization pipeline: JavaScript `\s` (ASCII part) plus hyphen and period. -/
def isSepChar (c : Char) : Bool :=
  c == ' ' || c == '\t' || c == '\n' || c == '\r' || c == '\x0b' || c == '\x0c'
    || c == '.' || c == '-'

/-- `String.prototype.toLowerCase` (ASCII behaviour). -/
def jsToLower (s : String) : String :=
  String.mk (s.data.map Char.toLower)

/-- `part.charAt(0).toUpperCase() + part.slice(1)` — capitalise the first
character, keep the rest. -/
def jsCapitalize (s : String) : String :=
  match s.data with
  | [] => ""
  | c :: cs => String.mk (Char.toUpper c :: cs)

/-- One step of splitting on maximal runs of separator characters, as the
regex split `split(/[\s.-]+/)` does.  State: segments so far (reversed),
current segment (reversed characters), whether the previous character was a
separator (so that a run of separators produces a single boundary). -/
def splitSepStep (st : List String × List Char × Bool) (c : Char) :
    List String × List Char × Bool :=
  if isSepChar c then
    if st.2.2 then st
    else (String.mk st.2.1.reverse :: st.1, [], true)
  else (st.1, c :: st.2.1, false)

/-- `s.split(/[\s.-]+/)`: split on maximal runs of separator characters;
leading and trailing runs contribute empty segments, and `""` splits to
`[""]`, matching the JavaScript regex-split semantics. -/
def jsSplitSeps (s : String) : List String :=
  let st := s.data.foldl splitSepStep ([], [], false)
  (String.mk st.2.1.reverse :: st.1).reverse

/-- `displayName.replace(/\s+/g, '').replace(/[.-]/g, '')`: drop every
whitespace, period and hyphen character. -/
def removeSeps (s : String) : String :=
  String.mk (s.data.filter (fun c => !isSepChar c))

/-- `Array.prototype.join(sep)`: empty array joins to `""`, otherwise the
elements concatenated with `sep` between consecutive elements. -/
def jsJoin (sep : String) : List String → String
  | [] => ""
  | [s] => s
  | s :: rest => s ++ sep ++ jsJoin sep rest

/-- The intermediate `displayNameForNormalization` of the tool handlers:
`raw.toLowerCase().split(/[\s.-]+/).map(capitalize).join(' ')`. -/
def displayNameForNormalization (raw : String) : String :=
  jsJoin " " ((jsSplitSeps (jsToLower raw)).map jsCapitalize)

/-- The canonical lookup key `componentNameKey` computed by every tool
handler: the display name above with whitespace, periods and hyphens
removed. -/
def componentNameKey (raw : String) : String :=
  removeSeps (displayNameForNormalization raw)

/-- The cache key computed by both registry refresh functions from a slug:
`slug.split('-').map(capitalize).join(' ')` then the same two replaces.
Note: unlike the tool handlers, the refresh functions do not lowercase and
split only on literal hyphens. -/
def jsSplitChar (sep : Char) (s : String) : List String :=
  s.data.foldr
    (fun c acc =>
      if c = sep then "" :: acc
      else
        match acc with
        | [] => [String.mk [c]]
        | h :: t => String.mk (c :: h.data) :: t)
    [""]

/-- `registryKeyFromSlug slug` is the `keyName` computed in
`refreshAceternityRegistryCache` / `refreshShadcnRegistryCache`. -/
def registryKeyFromSlug (slug : String) : String :=
  removeSeps (jsJoin " " ((jsSplitChar '-' slug).map jsCapitalize))

/-- JavaScript `a || b` for an optional string field: `undefined` and the
empty string are falsy. -/
def jsOptOr (a : Option String) (b : String) : String :=
  match a with
  | none => b
  | some s => if s = "" then b else s

/-- JavaScript `a || b` for a present string value: `""` is falsy. -/
def jsFalsyOr (a : String) (b : String) : String :=
  if a = "" then b else a

/-- The `IndexedComponentInfo` interface: one entry of
`harvested_index.json`.  The optional `description` is stored as a string
because both writers supply a string default (`""` / a synthesized blurb);
`dependencies`/`registryDependencies` default to `[]` (`|| []`). -/
structure IndexedComponentInfo where
  name : String
  source : String
  slug : String
  description : String
  filePath : String
  jsonUrl : String
  lastScanned : String
  dependencies : List String
  registryDependencies : List String
deriving Repr, DecidableEq

/-- One element of `FullComponentData.files`. -/
structure FullComponentFile where
  path : String
  content : String
deriving Repr, DecidableEq

/-- The `FullComponentData` interface: the per-component payload JSON
(`data/<source>/<slug>.json`).  Optional string fields are `Option String`;
list fields absent in the JSON are modelled as `[]`. -/
structure FullComponentData where
  name : String
  title : Option String
  type : Option String
  dependencies : List String
  registryDependencies : List String
  files : List FullComponentFile
  author : Option String
  description : Option String
deriving Repr, DecidableEq

/-- One entry of the shadcn registry listing (`ShadcnRegistryEntry`):
`name` is the slug, `files` is a list of file paths. -/
structure ShadcnRegistryEntry where
  name : String
  type : String
  dependencies : List String
  registryDependencies : List String
  files : List String
deriving Repr, DecidableEq

/-- Association-list update with JavaScript object-assignment semantics:
an existing string key is overwritten in place, a fresh key is appended. -/
def upsertA {α : Type} (k : String) (v : α) : List (String × α) → List (String × α)
  | [] => [(k, v)]
  | (k2, v2) :: rest => if k2 = k then (k, v) :: rest else (k2, v2) :: upsertA k v rest

/-- The durable index file as the store sees it: absent, present but not
valid JSON, or a parsed `{ "source:key" -> IndexedComponentInfo }` map. -/
inductive FileContent where
  | missing
  | corrupt
  | parsed (entries : List (String × IndexedComponentInfo))
deriving Repr, DecidableEq

/-- A per-component payload file under `data/`: either unparseable or a
parsed `FullComponentData`. -/
inductive PayloadFile where
  | corrupt
  | parsed (data : FullComponentData)
deriving Repr, DecidableEq

/-- The mutable state the index-store operations touch: the in-memory mirror
`inMemoryIndexCache`, the durable `harvested_index.json`, and the
per-component payload files keyed by their `data`-relative path. -/
structure Store where
  memCache : List (String × IndexedComponentInfo)
  indexFile : FileContent
  payloadFiles : List (String × PayloadFile)
deriving Repr, DecidableEq

/-- The empty store (process start before any load). -/
def Store.empty : Store := ⟨[], FileContent.missing, []⟩

/-- What the scan handlers see when they re-read `harvested_index.json`
before merging: a missing file and a file that fails `JSON.parse` both
yield a fresh empty index object. -/
def readIndexData : FileContent → List (String × IndexedComponentInfo)
  | FileContent.missing => []
  | FileContent.corrupt => []
  | FileContent.parsed m => m

/-- `loadIndexIntoMemoryCache`: if the index file exists and parses, replace
the in-memory cache with its contents; if it exists but fails to parse, clear
the cache; if it is missing, warn and leave the cache as it is (at startup it
is empty).  Every failure path is caught inside the function, so it returns a
cache in all cases. -/
def loadIndexIntoMemoryCache (file : FileContent)
    (pre : List (String × IndexedComponentInfo)) :
    List (String × IndexedComponentInfo) :=
  match file with
  | FileContent.missing => pre
  | FileContent.corrupt => []
  | FileContent.parsed m => m

/-- The shape of the JSON body a registry fetch can deliver once axios has
resolved: the expected array of component objects, or a body of some other
shape (e.g. a string left by a silent JSON-parse fallback, or a non-array
object), over which the refresh loop finds no usable entries. -/
inductive FetchedJson (α : Type) where
  | arr (items : List α)
  | notArr
deriving Repr, DecidableEq

/-- `refreshAceternityRegistryCache`: on a fetch (transport) failure the
`catch` fires before the cache was touched, so the previous contents stay;
on a successful fetch the cache is cleared first and then repopulated from
every entry with a truthy `name` (the slug); a body that is not the expected
array contributes no entries, leaving the cache cleared. -/
def refreshAceternityRegistryCache (prev : List (String × String))
    (outcome : Except String (FetchedJson String)) : List (String × String) :=
  match outcome with
  | Except.error _ => prev
  | Except.ok (FetchedJson.arr slugs) =>
      slugs.foldl
        (fun acc slug =>
          if slug ≠ "" then upsertA (registryKeyFromSlug slug) slug acc else acc)
        []
  | Except.ok FetchedJson.notArr => []

/-- `refreshShadcnRegistryCache`: identical control flow, but the whole
registry entry object is cached instead of just the slug. -/
def refreshShadcnRegistryCache (prev : List (String × ShadcnRegistryEntry))
    (outcome : Except String (FetchedJson ShadcnRegistryEntry)) :
    List (String × ShadcnRegistryEntry) :=
  match outcome with
  | Except.error _ => prev
  | Except.ok (FetchedJson.arr items) =>
      items.foldl
        (fun acc c =>
          if c.name ≠ "" then upsertA (registryKeyFromSlug c.name) c acc else acc)
        []
  | Except.ok FetchedJson.notArr => []

/-- Error codes a tool handler can surface.  The three `invalidParams`,
`internalError`, `methodNotFound` constructors are the MCP `ErrorCode`
values the handlers construct; `notFound` is the distinct "not-found"
surface code that the specification's error taxonomy (§6/§7) names for an
unresolvable component name — no handler in the source ever constructs it. -/
inductive McpErrorCode where
  | invalidParams
  | internalError
  | methodNotFound
  | notFound
deriving Repr, DecidableEq

/-- A structured `McpError`: code plus human-readable message. -/
structure McpErr where
  code : McpErrorCode
  message : String
deriving Repr, DecidableEq

/-- The result of one tool request: a success text, a returned
`{ content, isError: true }` response, or a thrown `McpError`. -/
inductive ScanOutcome where
  | success (text : String)
  | toolError (text : String)
  | protocolError (e : McpErr)
deriving Repr, DecidableEq

/-- Whether the outcome is the success case. -/
def ScanOutcome.isSuccess : ScanOutcome → Bool
  | ScanOutcome.success _ => true
  | _ => false

/-- The error code of the outcome: the thrown `McpError`'s code, if any. -/
def ScanOutcome.errorCode : ScanOutcome → Option McpErrorCode
  | ScanOutcome.protocolError e => some e.code
  | _ => none

/-- Slug resolution of `scan_aceternity_component` (lines 321–328): look the
canonical key up in the registry cache; a missing or falsy (empty) slug falls
through to the temporary hardcoded override, which supplies `"3d-pin"`
exactly when the key is the literal `"3DPin"`; a slug that is still falsy
afterwards resolves to nothing. -/
def resolveAceternitySlug (key : String) (reg : List (String × String)) :
    Option String :=
  let slug0 := reg.lookup key
  let slug1 :=
    if key = "3DPin" && (slug0 = none || slug0 = some "") then some "3d-pin"
    else slug0
  match slug1 with
  | none => none
  | some "" => none
  | some s => some s

/-- The read-merge-write step both scan handlers perform on
`harvested_index.json`: re-read the current on-disk contents (missing or
corrupt contents start a fresh index), overwrite the one entry for the
storage key, and write the whole object back. -/
def persistIndexEntry (disk : FileContent) (storageKey : String)
    (entry : IndexedComponentInfo) : List (String × IndexedComponentInfo) :=
  upsertA storageKey entry (readIndexData disk)

/-- The `newIndexEntry` record `scan_aceternity_component` builds from the
fetched per-component JSON (`componentData.title || componentData.name ||
rawComponentName` for the display name, empty-string default for the
description, `data`-relative payload path, the fetched URL, the scan
timestamp, and the dependency lists with `|| []` defaults). -/
def aceternityIndexEntry (rawComponentName slug scanDate : String)
    (componentData : FullComponentData) : IndexedComponentInfo := {
  name := jsOptOr componentData.title (jsFalsyOr componentData.name rawComponentName)
  source := "aceternity"
  slug := slug
  description := jsOptOr componentData.description ""
  filePath := "aceternity/" ++ slug ++ ".json"
  jsonUrl := "https://ui.aceternity.com/registry/" ++ slug ++ ".json"
  lastScanned := scanDate
  dependencies := componentData.dependencies
  registryDependencies := componentData.registryDependencies }

/-- `scan_aceternity_component`.  Effect outcomes are explicit parameters:
`fetchResult` is what `axios.get` of the per-component JSON delivers,
`writePayload` / `writeIndex` are the outcomes of the two `fs.writeFileSync`
calls (a failed write leaves the file unchanged and is caught by the
handler's `catch`, which wraps it in an `InternalError`).  `scanDate` is the
`new Date().toISOString()` timestamp.  Returns the post-call store and the
request outcome. -/
def scan_aceternity_component (rawComponentName : String)
    (providedComponentURL : Option String)
    (reg : List (String × String))
    (fetchResult : Except String FullComponentData)
    (writePayload writeIndex : Except String Unit)
    (scanDate : String) (st : Store) : Store × ScanOutcome :=
  if rawComponentName = "" then
    (st, ScanOutcome.protocolError ⟨McpErrorCode.invalidParams, "componentName is required."⟩)
  else
    let key := componentNameKey rawComponentName
    match resolveAceternitySlug key reg with
    | none =>
      match providedComponentURL with
      | none =>
        (st, ScanOutcome.protocolError ⟨McpErrorCode.invalidParams,
          "\x27" ++ rawComponentName ++ "\x27 not in registry and no componentURL provided."⟩)
      | some _ =>
        (st, ScanOutcome.protocolError ⟨McpErrorCode.internalError,
          "Component " ++ rawComponentName ++
            " not in registry, and HTML scraping from provided URL not implemented yet."⟩)
    | some slug =>
      let finalUrlToFetch := "https://ui.aceternity.com/registry/" ++ slug ++ ".json"
      match fetchResult with
      | Except.error e =>
        (st, ScanOutcome.protocolError ⟨McpErrorCode.internalError,
          "Failed to process component " ++ rawComponentName ++ "." ++
            " Axios error: " ++ e ++ " (URL: " ++ finalUrlToFetch ++ ")"⟩)
      | Except.ok componentData =>
        match writePayload with
        | Except.error e =>
          (st, ScanOutcome.protocolError ⟨McpErrorCode.internalError,
            "Failed to process component " ++ rawComponentName ++ "." ++ " Error: " ++ e⟩)
        | Except.ok _ =>
          let componentJsonFilePath := "aceternity/" ++ slug ++ ".json"
          let st1 := { st with
            payloadFiles :=
              upsertA componentJsonFilePath (PayloadFile.parsed componentData) st.payloadFiles }
          let indexData := readIndexData st1.indexFile
          let componentStorageKey := "aceternity:" ++ key
          let newIndexEntry := aceternityIndexEntry rawComponentName slug scanDate componentData
          let indexData2 := upsertA componentStorageKey newIndexEntry indexData
          match writeIndex with
          | Except.error e =>
            (st1, ScanOutcome.protocolError ⟨McpErrorCode.internalError,
              "Failed to process component " ++ rawComponentName ++ "." ++ " Error: " ++ e⟩)
          | Except.ok _ =>
            let st2 := { st1 with
              indexFile := FileContent.parsed indexData2
              memCache := upsertA componentStorageKey newIndexEntry st1.memCache }
            (st2, ScanOutcome.success
              ("Successfully processed JSON for \x27" ++ newIndexEntry.name ++
                "\x27, saved to data/" ++ componentJsonFilePath ++ ", and updated index."))

/-- The placeholder content `scan_shadcn_component` synthesizes for a file
path `f` of the inline-shape registry entry with slug `slug`:
`"// Content for <f> is typically added by 'npx shadcn-ui@latest add <slug>'"`.
No literal component source is ever fetched or stored for this source. -/
def shadcnPlaceholderContent (f slug : String) : String :=
  "// Content for " ++ f ++
    " is typically added by \x27npx shadcn-ui@latest add " ++ slug ++ "\x27"

/-- The `componentDataForStorage` payload `scan_shadcn_component` builds
locally from a cached registry entry: the slug as `name`, the generated
display name as `title`, the registry entry's metadata, and one
placeholder-content file item per listed path. -/
def shadcnStoredComponentData (displayName : String)
    (registryEntry : ShadcnRegistryEntry) : FullComponentData := {
  name := registryEntry.name
  title := some displayName
  type := some registryEntry.type
  dependencies := registryEntry.dependencies
  registryDependencies := registryEntry.registryDependencies
  files := registryEntry.files.map
    (fun f => { path := f, content := shadcnPlaceholderContent f registryEntry.name })
  author := some "shadcn"
  description := none }

/-- The `newIndexEntry` record `scan_shadcn_component` writes to the index:
display name, slug, a synthesized description (`description || "shadcn UI
<slug> component"`), the `data`-relative payload path, an anchor into the
main registry URL, and the dependency lists carried over from the stored
payload. -/
def shadcnIndexEntry (displayName scanDate : String)
    (registryEntry : ShadcnRegistryEntry) : IndexedComponentInfo := {
  name := displayName
  source := "shadcn"
  slug := registryEntry.name
  description := jsOptOr (shadcnStoredComponentData displayName registryEntry).description
    ("shadcn UI " ++ registryEntry.name ++ " component")
  filePath := "shadcn/" ++ registryEntry.name ++ ".json"
  jsonUrl := "https://ui.shadcn.com/registry#" ++ registryEntry.name
  lastScanned := scanDate
  dependencies := (shadcnStoredComponentData displayName registryEntry).dependencies
  registryDependencies :=
    (shadcnStoredComponentData displayName registryEntry).registryDependencies }

/-- `scan_shadcn_component`.  If the registry cache is empty the handler
first re-runs `refreshShadcnRegistryCache`; `refreshOutcome` is the fetch
outcome of that conditional refresh.  The payload saved for this inline-shape
source is constructed locally from the cached registry entry (no
per-component fetch), with `shadcnPlaceholderContent` standing in for the
unavailable file contents.  A lookup miss is returned as an
`isError: true` tool response; storage failures are wrapped in an
`InternalError` by the handler's `catch`. -/
def scan_shadcn_component (rawComponentName : String)
    (reg : List (String × ShadcnRegistryEntry))
    (refreshOutcome : Except String (FetchedJson ShadcnRegistryEntry))
    (writePayload writeIndex : Except String Unit)
    (scanDate : String) (st : Store) : Store × ScanOutcome :=
  if rawComponentName = "" then
    (st, ScanOutcome.protocolError ⟨McpErrorCode.invalidParams, "componentName is required."⟩)
  else
    let effReg :=
      if reg.isEmpty then refreshShadcnRegistryCache reg refreshOutcome else reg
    let displayName := displayNameForNormalization rawComponentName
    let key := componentNameKey rawComponentName
    match effReg.lookup key with
    | none =>
      (st, ScanOutcome.toolError
        ("Component \x27" ++ rawComponentName ++ "\x27 (key: " ++ key ++
          ") not found in shadcn UI registry cache. Known keys: " ++
          jsJoin ", " (effReg.map Prod.fst)))
    | some registryEntry =>
      let slug := registryEntry.name
      let componentDataForStorage := shadcnStoredComponentData displayName registryEntry
      match writePayload with
      | Except.error e =>
        (st, ScanOutcome.protocolError ⟨McpErrorCode.internalError,
          "Failed to process shadcn component " ++ rawComponentName ++ ": " ++ e⟩)
      | Except.ok _ =>
        let componentJsonFilePath := "shadcn/" ++ slug ++ ".json"
        let st1 := { st with
          payloadFiles :=
            upsertA componentJsonFilePath (PayloadFile.parsed componentDataForStorage)
              st.payloadFiles }
        let indexData := readIndexData st1.indexFile
        let componentStorageKey := "shadcn:" ++ key
        let newIndexEntry := shadcnIndexEntry displayName scanDate registryEntry
        let indexData2 := upsertA componentStorageKey newIndexEntry indexData
        match writeIndex with
        | Except.error e =>
          (st1, ScanOutcome.protocolError ⟨McpErrorCode.internalError,
            "Failed to process shadcn component " ++ rawComponentName ++ ": " ++ e⟩)
        | Except.ok _ =>
          let st2 := { st1 with
            indexFile := FileContent.parsed indexData2
            memCache := upsertA componentStorageKey newIndexEntry st1.memCache }
          (st2, ScanOutcome.success
            ("Successfully processed and stored metadata for shadcn UI component \x27" ++
              newIndexEntry.name ++ "\x27, saved to data/" ++ componentJsonFilePath ++
              ", and updated index."))

/-- Everything `get_shadcn_component_prompt` accumulates into `prompt`
before the CLI command block (two interpolations of the display name). -/
def shadcnPromptIntro (displayName : String) : String :=
  "You are given a task to integrate the \x27" ++ displayName ++
    "\x27 React component from shadcn UI into your codebase.\n\n" ++
  "Please verify your project has the following setup:\n" ++
  "- shadcn/ui project structure (check for components.json, lib/utils.ts)\n" ++
  "- Tailwind CSS (check for tailwind.config.ts)\n" ++
  "- TypeScript (check for tsconfig.json)\n\n" ++
  "If any of these are missing, provide instructions on how to set them up (e.g., \x27npx shadcn-ui@latest init\x27, install Tailwind, install TypeScript).\n\n" ++
  "Determine the default path for components (usually \x27components/ui\x27 or as specified in components.json).\n" ++
  "If the default path for components is not \x27components/ui\x27, explain why it\x27s important to use a consistent location like \x27components/ui\x27 for shadcn/ui components.\n\n" ++
  "To add the \x27" ++ displayName ++
    "\x27 component to your project, run the following command:\n\n"

/-- The fenced CLI installation command block, parameterized by the slug of
the indexed record:  ```npx shadcn-ui@latest add <slug>```. -/
def shadcnPromptCmd (slug : String) : String :=
  "```bash\n" ++ ("npx shadcn-ui@latest add " ++ slug) ++ "\n```\n\n"

/-- Everything `get_shadcn_component_prompt` appends after the CLI command
block: the expected file list, the always-appended `cn` utility note (the
source guards it with `if (true)`; the preceding `usesCn` heuristic is
computed but unused), the closing instruction, and the registry/external
dependency call-outs. -/
def shadcnPromptRest (displayName : String) (componentData : FullComponentData) : String :=
  "This command will install the component and its necessary dependencies into your project.\n\n" ++
  (if componentData.files.length > 0 then
    "The following file(s) will typically be added or modified in your project (usually under \x27components/ui\x27):\n" ++
      String.join (componentData.files.map (fun file => "- " ++ file.path ++ "\n")) ++ "\n"
   else "") ++
  ("Many shadcn UI components use the \x27cn\x27 utility function. Ensure you have \x27lib/utils.ts\x27 set up (this is done by `npx shadcn-ui@latest init`), which typically contains:\n" ++
   "```ts\n" ++
   "import \x7b type ClassValue, clsx \x7d from \"clsx\"\n" ++
   "import \x7b twMerge \x7d from \"tailwind-merge\"\n\n" ++
   "export function cn(...inputs: ClassValue[]) \x7b\n" ++
   "  return twMerge(clsx(inputs))\n" ++
   "\x7d\n" ++
   "```\n\n") ++
  ("After adding the files (if provided), import and use the main component (e.g., \x27" ++
    displayName ++ "\x27) in your application where needed.") ++
  (if componentData.registryDependencies.length > 0 then
    "\nThis component has registry dependencies: " ++
      jsJoin ", " componentData.registryDependencies ++
      ". You might need to install them separately using the shadcn CLI (e.g., \x27npx shadcn@latest add dependency-name\x27).\n"
   else "") ++
  (if componentData.dependencies.length > 0 then
    let externalDeps := componentData.dependencies.filter
      (fun dep => dep ≠ "cn" && dep ≠ "react" && dep ≠ "tailwindcss" &&
        !(componentData.registryDependencies.contains dep))
    if externalDeps.length > 0 then
      "\nThis component also has external npm dependencies: " ++
        jsJoin ", " externalDeps ++
        ". Ensure these are installed in your project (e.g., \x27pnpm add " ++
        jsJoin " " externalDeps ++ "\x27).\n"
    else ""
   else "")

/-- The full prompt text `get_shadcn_component_prompt` renders from the
indexed record and the persisted payload. -/
def shadcnPrompt (rawComponentNameFromArgs : String)
    (indexedInfo : IndexedComponentInfo) (componentData : FullComponentData) : String :=
  let displayName := jsOptOr componentData.title
    (jsFalsyOr componentData.name rawComponentNameFromArgs)
  shadcnPromptIntro displayName ++ shadcnPromptCmd indexedInfo.slug ++
    shadcnPromptRest displayName componentData

/-- `get_shadcn_component_prompt`: resolve the canonical key, look the
record up in the in-memory mirror only, read the persisted payload file, and
render the prompt.  The store is never mutated, so only the outcome is
returned. -/
def get_shadcn_component_prompt (rawComponentNameFromArgs : String) (st : Store) :
    ScanOutcome :=
  if rawComponentNameFromArgs = "" then
    ScanOutcome.protocolError ⟨McpErrorCode.invalidParams, "componentName is required."⟩
  else
    let key := componentNameKey rawComponentNameFromArgs
    let componentStorageLookupKey := "shadcn:" ++ key
    match st.memCache.lookup componentStorageLookupKey with
    | none =>
      ScanOutcome.toolError
        ("Shadcn component \x27" ++ rawComponentNameFromArgs ++ "\x27 (key: " ++
          componentStorageLookupKey ++ ") not found in index. Try scanning it first.")
    | some indexedInfo =>
      match st.payloadFiles.lookup indexedInfo.filePath with
      | none =>
        ScanOutcome.toolError
          ("Shadcn component data file not found at data/" ++ indexedInfo.filePath ++
            " for \x27" ++ indexedInfo.name ++ "\x27. Index might be stale.")
      | some PayloadFile.corrupt =>
        ScanOutcome.toolError
          ("Error parsing Shadcn component data file data/" ++ indexedInfo.filePath)
      | some (PayloadFile.parsed componentData) =>
        ScanOutcome.success (shadcnPrompt rawComponentNameFromArgs indexedInfo componentData)

/-- A concrete fetched per-component payload used to exercise the handlers
on closed inputs. -/
def sampleAceternityData : FullComponentData :=
  { name := "button", title := some "Button", type := some "registry:ui", dependencies := ["motion"], registryDependencies := [], files := [{ path := "components/ui/button.tsx", content := "export const Button = () => null" }], author := none, description := some "A button" }

/-- A concrete shadcn registry entry used to exercise the handlers on closed
inputs. -/
def sampleShadcnEntry : ShadcnRegistryEntry :=
  { name := "card", type := "registry:ui", dependencies := ["clsx"], registryDependencies := ["button"], files := ["ui/card.tsx", "ui/card-header.tsx"] }

/-- A pre-existing index entry standing for one written by an external edit
of `harvested_index.json`. -/
def sampleExternalEntry : IndexedComponentInfo :=
  { name := "Other", source := "aceternity", slug := "other", description := "", filePath := "aceternity/other.json", jsonUrl := "https://ui.aceternity.com/registry/other.json", lastScanned := "2024-12-31T00:00:00.000Z", dependencies := [], registryDependencies := [] }

/-- A store whose durable index file already holds `sampleExternalEntry`
under a different identity (and whose in-memory mirror does not — the entry
arrived by external edit). -/
def sampleDiskStore : Store :=
  { memCache := [], indexFile := FileContent.parsed [("aceternity:Other", sampleExternalEntry)], payloadFiles := [] }

/-! ## Helper lemmas -/

theorem lookup_upsertA_self {α : Type} (k : String) (v : α) (l : List (String × α)) :
    (upsertA k v l).lookup k = some v := by
  induction l with
  | nil => simp [upsertA, List.lookup]
  | cons h t ih =>
    obtain ⟨k2, v2⟩ := h
    by_cases hk : k2 = k
    · simp [upsertA, hk, List.lookup]
    · simp only [upsertA, if_neg hk, List.lookup]
      rw [show (k == k2) = false by simp [Ne.symm hk]]
      exact ih

theorem lookup_upsertA_ne {α : Type} (k k' : String) (v : α) (l : List (String × α))
    (hk : k' ≠ k) : (upsertA k v l).lookup k' = l.lookup k' := by
  induction l with
  | nil =>
    simp only [upsertA, List.lookup]
    rw [show (k' == k) = false by simp [hk]]
  | cons h t ih =>
    obtain ⟨k2, v2⟩ := h
    by_cases h2 : k2 = k
    · subst h2
      simp only [upsertA, if_pos rfl, List.lookup]
      rw [show (k' == k2) = false by simp [hk]]
    · simp only [upsertA, if_neg h2, List.lookup]
      cases hc : (k' == k2) <;> simp [ih]

theorem sAppend_assoc (a b c : String) : a ++ b ++ c = a ++ (b ++ c) := by
  rcases a with ⟨la⟩; rcases b with ⟨lb⟩; rcases c with ⟨lc⟩
  show String.mk ((la ++ lb) ++ lc) = String.mk (la ++ (lb ++ lc))
  rw [List.append_assoc]

theorem removeSeps_append (a b : String) :
    removeSeps (a ++ b) = removeSeps a ++ removeSeps b := by
  rcases a with ⟨la⟩; rcases b with ⟨lb⟩
  show String.mk ((la ++ lb).filter _) = String.mk (la.filter _ ++ lb.filter _)
  rw [List.filter_append]

/-- Separator characters are unaffected by `toLowerCase`. -/
theorem toLower_of_sep (c : Char) (h : isSepChar c = true) : Char.toLower c = c := by
  unfold isSepChar at h
  simp only [Bool.or_eq_true, beq_iff_eq] at h
  rcases h with ((((((h|h)|h)|h)|h)|h)|h)|h <;> subst h <;> decide

/-- Folding `splitSepStep` over separator-only characters keeps the current
segment empty and every accumulated segment empty. -/
theorem splitSepStep_allSep :
    ∀ (l : List Char) (segs : List String) (p : Bool),
      (∀ c ∈ l, isSepChar c = true) → (∀ s ∈ segs, s = "") →
      (l.foldl splitSepStep (segs, [], p)).2.1 = [] ∧
        ∀ s ∈ (l.foldl splitSepStep (segs, [], p)).1, s = "" := by
  intro l
  induction l with
  | nil => intro segs p _ hsegs; exact ⟨rfl, hsegs⟩
  | cons c rest ih =>
    intro segs p hl hsegs
    have hc : isSepChar c = true := hl c (List.mem_cons_self c rest)
    have hrest : ∀ c2 ∈ rest, isSepChar c2 = true :=
      fun c2 h2 => hl c2 (List.mem_cons_of_mem c h2)
    rw [List.foldl_cons]
    cases p with
    | true =>
      have hstep : splitSepStep (segs, [], true) c = (segs, [], true) := by
        simp [splitSepStep, hc]
      rw [hstep]
      exact ih segs true hrest hsegs
    | false =>
      have hstep : splitSepStep (segs, [], false) c = ("" :: segs, [], true) := by
        simp [splitSepStep, hc]
      rw [hstep]
      refine ih ("" :: segs) true hrest ?_
      intro s hs
      rcases List.mem_cons.mp hs with h | h
      · exact h
      · exact hsegs s h

/-- Joining a list of empty strings with single spaces yields a string whose
characters are all separators; stripping separators then yields `""`. -/
theorem removeSeps_jsJoin_empties :
    ∀ (l : List String), (∀ s ∈ l, s = "") → removeSeps (jsJoin " " l) = "" := by
  intro l
  induction l with
  | nil => intro _; rfl
  | cons s rest ih =>
    intro h
    have hs : s = "" := h s (List.mem_cons_self s rest)
    have hrest : ∀ t ∈ rest, t = "" := fun t ht => h t (List.mem_cons_of_mem s ht)
    cases rest with
    | nil => subst hs; rfl
    | cons r rs =>
      subst hs
      show removeSeps ("" ++ " " ++ jsJoin " " (r :: rs)) = ""
      rw [removeSeps_append, removeSeps_append, ih hrest]
      rfl

/-- A `componentName` consisting only of separator (whitespace, period,
hyphen) characters normalizes to the empty canonical key. -/
theorem componentNameKey_allSep (raw : String)
    (h : ∀ c ∈ raw.data, isSepChar c = true) : componentNameKey raw = "" := by
  unfold componentNameKey displayNameForNormalization
  have hlo : ∀ c ∈ (jsToLower raw).data, isSepChar c = true := by
    intro c hc
    simp only [jsToLower] at hc
    rcases List.mem_map.mp hc with ⟨c0, hc0, rfl⟩
    rw [toLower_of_sep c0 (h c0 hc0)]
    exact h c0 hc0
  have hsplit : ∀ s ∈ jsSplitSeps (jsToLower raw), s = "" := by
    unfold jsSplitSeps
    have hfold := splitSepStep_allSep (jsToLower raw).data [] false hlo
      (by intro s hs; cases hs)
    intro s hs
    rw [List.mem_reverse] at hs
    rcases List.mem_cons.mp hs with h1 | h1
    · rw [h1, hfold.1]
      rfl
    · exact hfold.2 s h1
  have hcap : ∀ s ∈ (jsSplitSeps (jsToLower raw)).map jsCapitalize, s = "" := by
    intro s hs
    rcases List.mem_map.mp hs with ⟨t, ht, rfl⟩
    rw [hsplit t ht]
    rfl
  exact removeSeps_jsJoin_empties _ hcap

/-- Shape of a fully successful `scan_aceternity_component` run: the slug
resolves, the fetch succeeds, and both writes succeed; the handler then
stores the payload file, merges the new entry into the re-read index file,
and mirrors it into the in-memory cache. -/
theorem scan_aceternity_component_ok (raw : String) (url : Option String)
    (reg : List (String × String)) (slug : String) (data : FullComponentData)
    (date : String) (st : Store)
    (hraw : raw ≠ "")
    (hslug : resolveAceternitySlug (componentNameKey raw) reg = some slug) :
    scan_aceternity_component raw url reg (Except.ok data) (Except.ok ())
        (Except.ok ()) date st =
      ({ memCache := upsertA ("aceternity:" ++ componentNameKey raw)
            (aceternityIndexEntry raw slug date data) st.memCache
         indexFile := FileContent.parsed (upsertA ("aceternity:" ++ componentNameKey raw)
            (aceternityIndexEntry raw slug date data) (readIndexData st.indexFile))
         payloadFiles := upsertA ("aceternity/" ++ slug ++ ".json")
            (PayloadFile.parsed data) st.payloadFiles },
       ScanOutcome.success
         ("Successfully processed JSON for \x27" ++
           (aceternityIndexEntry raw slug date data).name ++
           "\x27, saved to data/" ++ ("aceternity/" ++ slug ++ ".json") ++
           ", and updated index.")) := by
  unfold scan_aceternity_component
  rw [if_neg hraw]
  simp only [hslug]

/-- Shape of a fully successful `scan_shadcn_component` run: the canonical
key is found in the (possibly just-refreshed) registry cache and both writes
succeed; the handler stores the locally synthesized payload, merges the new
entry into the re-read index file, and mirrors it into the in-memory
cache. -/
theorem scan_shadcn_component_ok (raw : String)
    (reg : List (String × ShadcnRegistryEntry))
    (ro : Except String (FetchedJson ShadcnRegistryEntry))
    (registryEntry : ShadcnRegistryEntry) (date : String) (st : Store)
    (hraw : raw ≠ "")
    (hfound : (if reg.isEmpty then refreshShadcnRegistryCache reg ro else reg).lookup
        (componentNameKey raw) = some registryEntry) :
    scan_shadcn_component raw reg ro (Except.ok ()) (Except.ok ()) date st =
      ({ memCache := upsertA ("shadcn:" ++ componentNameKey raw)
            (shadcnIndexEntry (displayNameForNormalization raw) date registryEntry)
            st.memCache
         indexFile := FileContent.parsed (upsertA ("shadcn:" ++ componentNameKey raw)
            (shadcnIndexEntry (displayNameForNormalization raw) date registryEntry)
            (readIndexData st.indexFile))
         payloadFiles := upsertA ("shadcn/" ++ registryEntry.name ++ ".json")
            (PayloadFile.parsed
              (shadcnStoredComponentData (displayNameForNormalization raw) registryEntry))
            st.payloadFiles },
       ScanOutcome.success
         ("Successfully processed and stored metadata for shadcn UI component \x27" ++
           (shadcnIndexEntry (displayNameForNormalization raw) date registryEntry).name ++
           "\x27, saved to data/" ++ ("shadcn/" ++ registryEntry.name ++ ".json") ++
           ", and updated index.")) := by
  unfold scan_shadcn_component
  rw [if_neg hraw]
  simp only [hfound]



/-! ## Claim theorems -/

/-- C1: for every scan (upsert) of an identity `(source, key)`, if the
durable write of `harvested_index.json` fails, the operation fails (no
success outcome is returned) and the in-memory index mirror — and the index
file — are at their pre-call state afterwards, for both
`scan_aceternity_component` and `scan_shadcn_component`: the handlers only
mirror the new entry into memory after the index write has succeeded. -/
theorem c1_index_write_failure_preserves_memory
    (raw : String) (url : Option String) (reg : List (String × String))
    (fr : Except String FullComponentData) (wp : Except String Unit)
    (wi : Except String Unit) (e1 : String) (date : String) (st : Store)
    (raw2 : String) (reg2 : List (String × ShadcnRegistryEntry))
    (ro : Except String (FetchedJson ShadcnRegistryEntry)) (wp2 : Except String Unit)
    (wi2 : Except String Unit) (e2 : String) (date2 : String) (st2 : Store)
    (hw1 : wi = Except.error e1) (hw2 : wi2 = Except.error e2) :
    ((scan_aceternity_component raw url reg fr wp wi date st).2.isSuccess = false ∧
      (scan_aceternity_component raw url reg fr wp wi date st).1.memCache = st.memCache ∧
      (scan_aceternity_component raw url reg fr wp wi date st).1.indexFile = st.indexFile) ∧
    ((scan_shadcn_component raw2 reg2 ro wp2 wi2 date2 st2).2.isSuccess = false ∧
      (scan_shadcn_component raw2 reg2 ro wp2 wi2 date2 st2).1.memCache = st2.memCache ∧
      (scan_shadcn_component raw2 reg2 ro wp2 wi2 date2 st2).1.indexFile = st2.indexFile) := by
  subst hw1; subst hw2
  constructor
  · unfold scan_aceternity_component
    dsimp only
    repeat' split
    all_goals exact ⟨rfl, rfl, rfl⟩
  · unfold scan_shadcn_component
    dsimp only
    repeat' split
    all_goals exact ⟨rfl, rfl, rfl⟩

theorem c1_index_write_failure_preserves_memory_witness :
    ((scan_aceternity_component "Button" none [("Button", "button")]
        (Except.ok sampleAceternityData) (Except.ok ()) (Except.error "disk full")
        "2025-01-01T00:00:00.000Z" Store.empty).2.isSuccess = false ∧
      (scan_aceternity_component "Button" none [("Button", "button")]
        (Except.ok sampleAceternityData) (Except.ok ()) (Except.error "disk full")
        "2025-01-01T00:00:00.000Z" Store.empty).1.memCache = Store.empty.memCache ∧
      (scan_aceternity_component "Button" none [("Button", "button")]
        (Except.ok sampleAceternityData) (Except.ok ()) (Except.error "disk full")
        "2025-01-01T00:00:00.000Z" Store.empty).1.indexFile = Store.empty.indexFile) ∧
    ((scan_shadcn_component "Card" [("Card", sampleShadcnEntry)]
        (Except.error "unused") (Except.ok ()) (Except.error "disk full")
        "2025-01-01T00:00:00.000Z" Store.empty).2.isSuccess = false ∧
      (scan_shadcn_component "Card" [("Card", sampleShadcnEntry)]
        (Except.error "unused") (Except.ok ()) (Except.error "disk full")
        "2025-01-01T00:00:00.000Z" Store.empty).1.memCache = Store.empty.memCache ∧
      (scan_shadcn_component "Card" [("Card", sampleShadcnEntry)]
        (Except.error "unused") (Except.ok ()) (Except.error "disk full")
        "2025-01-01T00:00:00.000Z" Store.empty).1.indexFile = Store.empty.indexFile) :=
  c1_index_write_failure_preserves_memory "Button" none [("Button", "button")]
    (Except.ok sampleAceternityData) (Except.ok ()) (Except.error "disk full")
    "disk full" "2025-01-01T00:00:00.000Z" Store.empty
    "Card" [("Card", sampleShadcnEntry)]
    (Except.error "unused") (Except.ok ()) (Except.error "disk full") "disk full"
    "2025-01-01T00:00:00.000Z" Store.empty rfl rfl

/-- C2 counterexample: a refresh whose fetch succeeds but whose body is not
the expected component array (a parse/shape failure) does not leave a
previously non-empty cache untouched — the cache was already cleared before
the entries loop could fail, so it ends empty. -/
theorem c2_parse_failure_clears_cache_cex :
    refreshAceternityRegistryCache [("Button", "button")]
        (Except.ok FetchedJson.notArr) = [] ∧
    ([] : List (String × String)) ≠ [("Button", "button")] := by
  exact ⟨rfl, by decide⟩

/-- C2 (amended): a fetch (transport) failure leaves the previous registry
cache exactly as it was, for both sources; but when the fetch succeeds and
the body is not the expected array, the cache has already been cleared
before the failure is detected, so it is left empty rather than stale. -/
theorem c2_refresh_failure_policy (prev : List (String × String))
    (prev2 : List (String × ShadcnRegistryEntry)) (e e2 : String) :
    refreshAceternityRegistryCache prev (Except.error e) = prev ∧
    refreshShadcnRegistryCache prev2 (Except.error e2) = prev2 ∧
    refreshAceternityRegistryCache prev (Except.ok FetchedJson.notArr) = [] ∧
    refreshShadcnRegistryCache prev2 (Except.ok FetchedJson.notArr) = [] :=
  ⟨rfl, rfl, rfl, rfl⟩

/-- C3 counterexample: normalization is not idempotent.  For the display
name "alert dialog" the key is "AlertDialog", but re-normalizing that key
lowercases the interior capitals and yields "Alertdialog". -/
theorem c3_normalize_not_idempotent_cex :
    ¬ (componentNameKey (componentNameKey "alert dialog") =
        componentNameKey "alert dialog") := by decide

/-- C3 (amended): for every display-name string `s`, `componentNameKey s`
contains no whitespace, hyphen or period characters (the final two
`replace` calls strip exactly those); idempotence however fails for
multi-segment names, as the counterexample shows. -/
theorem c3_normalize_no_separator_chars (s : String) :
    (componentNameKey s).data.all (fun c => !isSepChar c) = true := by
  unfold componentNameKey removeSeps
  rw [List.all_eq_true]
  intro c hc
  have := List.of_mem_filter hc
  simpa using this

/-- C4 counterexample: when the canonical key of a reference-shape scan
resolves neither in the registry cache nor in the hardcoded override and no
fallback URL is supplied, the structured error the handler throws carries
the MCP `InvalidParams` code, not a distinct not-found code — the
specification's `NotFound` category is surfaced as invalid-arguments. -/
theorem c4_unresolvable_scan_error_code_cex :
    (scan_aceternity_component "Foo" none [] (Except.error "err") (Except.ok ())
        (Except.ok ()) "2025-01-01T00:00:00.000Z" Store.empty).2.errorCode =
      some McpErrorCode.invalidParams ∧
    McpErrorCode.invalidParams ≠ McpErrorCode.notFound ∧
    (scan_aceternity_component "Foo" none [] (Except.error "err") (Except.ok ())
        (Except.ok ()) "2025-01-01T00:00:00.000Z" Store.empty).1 = Store.empty := by
  refine ⟨rfl, by decide, rfl⟩

/-- C4 (amended): a reference-shape scan whose key resolves neither in the
registry cache nor in the manual override, with no fallback `componentURL`,
fails with a structured `InvalidParams` ("not in registry") error — the MCP
invalid-arguments code, standing in for the spec's NotFound category — and
returns the store untouched (in-memory mirror and durable index file both
unchanged). -/
theorem c4_unresolvable_scan_fails_store_unchanged (raw : String)
    (reg : List (String × String)) (fr : Except String FullComponentData)
    (wp wi : Except String Unit) (date : String) (st : Store)
    (hraw : raw ≠ "")
    (hslug : resolveAceternitySlug (componentNameKey raw) reg = none) :
    scan_aceternity_component raw none reg fr wp wi date st =
      (st, ScanOutcome.protocolError ⟨McpErrorCode.invalidParams,
        "\x27" ++ raw ++ "\x27 not in registry and no componentURL provided."⟩) := by
  unfold scan_aceternity_component
  rw [if_neg hraw]
  simp only [hslug]

theorem c4_unresolvable_scan_fails_store_unchanged_witness :
    scan_aceternity_component "Foo Bar" none [] (Except.error "err") (Except.ok ())
        (Except.ok ()) "2025-01-01T00:00:00.000Z" Store.empty =
      (Store.empty, ScanOutcome.protocolError ⟨McpErrorCode.invalidParams,
        "\x27Foo Bar\x27 not in registry and no componentURL provided."⟩) :=
  c4_unresolvable_scan_fails_store_unchanged "Foo Bar" [] (Except.error "err")
    (Except.ok ()) (Except.ok ()) "2025-01-01T00:00:00.000Z" Store.empty
    (by decide) (by decide)

/-- C7: `loadIndexIntoMemoryCache` never fails startup.  A file that exists
but does not parse always leaves the in-memory mirror empty; at startup
(empty pre-call mirror) a missing file also leaves it empty; a parseable
file replaces the mirror with the parsed contents.  The embedding returns a
cache in every case — all failure paths in the source are caught inside the
function. -/
theorem c7_load_never_fails_startup :
    (∀ pre, loadIndexIntoMemoryCache FileContent.corrupt pre = []) ∧
    loadIndexIntoMemoryCache FileContent.missing [] = [] ∧
    (∀ m, loadIndexIntoMemoryCache (FileContent.parsed m) [] = m) :=
  ⟨fun _ => rfl, rfl, fun _ => rfl⟩

/-- C8 counterexample: a whitespace-only `componentName` is not rejected up
front.  For the input `" "` the handler produces the empty canonical key and
proceeds; with a fallback URL supplied it fails with `InternalError` (the
unimplemented-scraping branch), not with an invalid-arguments error. -/
theorem c8_whitespace_only_not_rejected_cex :
    componentNameKey " " = "" ∧
    (scan_aceternity_component " " (some "https://example.com/components/pin")
        [] (Except.error "err") (Except.ok ()) (Except.ok ())
        "2025-01-01T00:00:00.000Z" Store.empty).2.errorCode =
      some McpErrorCode.internalError ∧
    McpErrorCode.internalError ≠ McpErrorCode.invalidParams := by
  refine ⟨by decide, rfl, by decide⟩

/-- C8 (amended): an empty `componentName` fails fast with the
`InvalidParams` "componentName is required." error before any key is
computed; a separator-only (whitespace-only) input, however, passes the
truthiness guard and proceeds with the empty canonical key. -/
theorem c8_empty_fails_fast_whitespace_proceeds
    (url : Option String) (reg : List (String × String))
    (fr : Except String FullComponentData) (wp wi : Except String Unit)
    (date : String) (st : Store) (raw2 : String)
    (hsep : ∀ c ∈ raw2.data, isSepChar c = true) :
    scan_aceternity_component "" url reg fr wp wi date st =
      (st, ScanOutcome.protocolError ⟨McpErrorCode.invalidParams,
        "componentName is required."⟩) ∧
    componentNameKey raw2 = "" :=
  ⟨rfl, componentNameKey_allSep raw2 hsep⟩

theorem c8_empty_fails_fast_whitespace_proceeds_witness :
    (scan_aceternity_component "" none [] (Except.error "err") (Except.ok ())
        (Except.ok ()) "2025-01-01T00:00:00.000Z" Store.empty =
      (Store.empty, ScanOutcome.protocolError ⟨McpErrorCode.invalidParams,
        "componentName is required."⟩)) ∧
    componentNameKey " \t- ." = "" :=
  c8_empty_fails_fast_whitespace_proceeds none [] (Except.error "err")
    (Except.ok ()) (Except.ok ()) "2025-01-01T00:00:00.000Z" Store.empty
    " \t- ." (by decide)

/-- C10: the three spellings "3D Pin", "3d-pin" and "3d pin" all normalize
to the canonical key "3dPin", which differs from the literal "3DPin" that
guards the hardcoded override, so the override is not taken for these
inputs; with the registry cache lacking the entry and no fallback URL, the
scan fails with the "not in registry" error instead of falling back to the
hardcoded slug "3d-pin". -/
theorem c10_hardcoded_override_not_taken :
    componentNameKey "3D Pin" = "3dPin" ∧
    componentNameKey "3d-pin" = "3dPin" ∧
    componentNameKey "3d pin" = "3dPin" ∧
    ("3dPin" : String) ≠ "3DPin" ∧
    resolveAceternitySlug (componentNameKey "3D Pin") [] = none ∧
    (scan_aceternity_component "3D Pin" none [] (Except.error "network error")
        (Except.ok ()) (Except.ok ()) "2025-01-01T00:00:00.000Z" Store.empty).2 =
      ScanOutcome.protocolError ⟨McpErrorCode.invalidParams,
        "\x273D Pin\x27 not in registry and no componentURL provided."⟩ := by
  refine ⟨by decide, by decide, by decide, by decide, by decide, rfl⟩

/-- C5: for every successful reference-shape upsert (a
`scan_aceternity_component` run in which the slug resolves, the fetch
succeeds and both durable writes succeed), a simulated process restart — a
fresh `loadIndexIntoMemoryCache` reading the index file the scan just
wrote, from any pre-restart cache state — yields a mirror whose lookup of
`"aceternity:<key>"` returns exactly the record the in-memory mirror
returned before the restart, namely the `aceternityIndexEntry` the scan
stored. -/
theorem c5_lookup_survives_restart (raw : String) (url : Option String)
    (reg : List (String × String)) (slug : String) (data : FullComponentData)
    (date : String) (st : Store) (pre : List (String × IndexedComponentInfo))
    (hraw : raw ≠ "")
    (hslug : resolveAceternitySlug (componentNameKey raw) reg = some slug) :
    (scan_aceternity_component raw url reg (Except.ok data) (Except.ok ())
        (Except.ok ()) date st).2.isSuccess = true ∧
    (loadIndexIntoMemoryCache
        (scan_aceternity_component raw url reg (Except.ok data) (Except.ok ())
          (Except.ok ()) date st).1.indexFile pre).lookup
        ("aceternity:" ++ componentNameKey raw) =
      ((scan_aceternity_component raw url reg (Except.ok data) (Except.ok ())
        (Except.ok ()) date st).1.memCache).lookup
        ("aceternity:" ++ componentNameKey raw) ∧
    ((scan_aceternity_component raw url reg (Except.ok data) (Except.ok ())
        (Except.ok ()) date st).1.memCache).lookup
        ("aceternity:" ++ componentNameKey raw) =
      some (aceternityIndexEntry raw slug date data) := by
  rw [scan_aceternity_component_ok raw url reg slug data date st hraw hslug]
  refine ⟨rfl, ?_, ?_⟩
  · show (upsertA _ _ _).lookup _ = (upsertA _ _ _).lookup _
    rw [lookup_upsertA_self, lookup_upsertA_self]
  · exact lookup_upsertA_self _ _ _

theorem c5_lookup_survives_restart_witness :
    (scan_aceternity_component "3d pin" none [("3dPin", "3d-pin")]
        (Except.ok sampleAceternityData) (Except.ok ()) (Except.ok ())
        "2025-01-01T00:00:00.000Z" Store.empty).2.isSuccess = true ∧
    (loadIndexIntoMemoryCache
        (scan_aceternity_component "3d pin" none [("3dPin", "3d-pin")]
          (Except.ok sampleAceternityData) (Except.ok ()) (Except.ok ())
          "2025-01-01T00:00:00.000Z" Store.empty).1.indexFile []).lookup
        ("aceternity:" ++ componentNameKey "3d pin") =
      ((scan_aceternity_component "3d pin" none [("3dPin", "3d-pin")]
        (Except.ok sampleAceternityData) (Except.ok ()) (Except.ok ())
        "2025-01-01T00:00:00.000Z" Store.empty).1.memCache).lookup
        ("aceternity:" ++ componentNameKey "3d pin") ∧
    ((scan_aceternity_component "3d pin" none [("3dPin", "3d-pin")]
        (Except.ok sampleAceternityData) (Except.ok ()) (Except.ok ())
        "2025-01-01T00:00:00.000Z" Store.empty).1.memCache).lookup
        ("aceternity:" ++ componentNameKey "3d pin") =
      some (aceternityIndexEntry "3d pin" "3d-pin" "2025-01-01T00:00:00.000Z"
        sampleAceternityData) :=
  c5_lookup_survives_restart "3d pin" none [("3dPin", "3d-pin")] "3d-pin"
    sampleAceternityData "2025-01-01T00:00:00.000Z" Store.empty []
    (by decide) (by decide)

/-- C6: for every successful upsert (both scan handlers), the durable index
file afterwards equals the on-disk contents read at the start of the write
step — the file is re-read, not taken from the in-memory mirror, so `m` may
contain entries added by external edits — with only the `"source:key"`
entry replaced; every entry under a different identity is preserved
unchanged. -/
theorem c6_upsert_preserves_other_entries (raw : String) (url : Option String)
    (reg : List (String × String)) (slug : String) (data : FullComponentData)
    (date : String) (st : Store) (m : List (String × IndexedComponentInfo))
    (raw2 : String) (reg2 : List (String × ShadcnRegistryEntry))
    (ro : Except String (FetchedJson ShadcnRegistryEntry))
    (registryEntry : ShadcnRegistryEntry) (date2 : String) (st2 : Store)
    (m2 : List (String × IndexedComponentInfo))
    (hraw : raw ≠ "")
    (hslug : resolveAceternitySlug (componentNameKey raw) reg = some slug)
    (hm : st.indexFile = FileContent.parsed m)
    (hraw2 : raw2 ≠ "")
    (hfound2 : (if reg2.isEmpty then refreshShadcnRegistryCache reg2 ro else reg2).lookup
        (componentNameKey raw2) = some registryEntry)
    (hm2 : st2.indexFile = FileContent.parsed m2) :
    ((scan_aceternity_component raw url reg (Except.ok data) (Except.ok ())
          (Except.ok ()) date st).1.indexFile =
        FileContent.parsed (upsertA ("aceternity:" ++ componentNameKey raw)
          (aceternityIndexEntry raw slug date data) m) ∧
      ∀ k, k ≠ "aceternity:" ++ componentNameKey raw →
        (readIndexData (scan_aceternity_component raw url reg (Except.ok data)
          (Except.ok ()) (Except.ok ()) date st).1.indexFile).lookup k = m.lookup k) ∧
    ((scan_shadcn_component raw2 reg2 ro (Except.ok ()) (Except.ok ())
          date2 st2).1.indexFile =
        FileContent.parsed (upsertA ("shadcn:" ++ componentNameKey raw2)
          (shadcnIndexEntry (displayNameForNormalization raw2) date2 registryEntry) m2) ∧
      ∀ k, k ≠ "shadcn:" ++ componentNameKey raw2 →
        (readIndexData (scan_shadcn_component raw2 reg2 ro (Except.ok ())
          (Except.ok ()) date2 st2).1.indexFile).lookup k = m2.lookup k) := by
  rw [scan_aceternity_component_ok raw url reg slug data date st hraw hslug,
    scan_shadcn_component_ok raw2 reg2 ro registryEntry date2 st2 hraw2 hfound2]
  refine ⟨⟨?_, ?_⟩, ?_, ?_⟩
  · show FileContent.parsed (upsertA _ _ (readIndexData st.indexFile)) = _
    rw [hm]
    rfl
  · intro k hk
    show (upsertA _ _ (readIndexData st.indexFile)).lookup k = m.lookup k
    rw [hm]
    exact lookup_upsertA_ne _ _ _ _ hk
  · show FileContent.parsed (upsertA _ _ (readIndexData st2.indexFile)) = _
    rw [hm2]
    rfl
  · intro k hk
    show (upsertA _ _ (readIndexData st2.indexFile)).lookup k = m2.lookup k
    rw [hm2]
    exact lookup_upsertA_ne _ _ _ _ hk

theorem c6_upsert_preserves_other_entries_witness :
    ((scan_aceternity_component "3d pin" none [("3dPin", "3d-pin")]
          (Except.ok sampleAceternityData) (Except.ok ()) (Except.ok ())
          "2025-01-01T00:00:00.000Z" sampleDiskStore).1.indexFile =
        FileContent.parsed (upsertA ("aceternity:" ++ componentNameKey "3d pin")
          (aceternityIndexEntry "3d pin" "3d-pin" "2025-01-01T00:00:00.000Z"
            sampleAceternityData)
          [("aceternity:Other", sampleExternalEntry)]) ∧
      (readIndexData (scan_aceternity_component "3d pin" none [("3dPin", "3d-pin")]
          (Except.ok sampleAceternityData) (Except.ok ()) (Except.ok ())
          "2025-01-01T00:00:00.000Z" sampleDiskStore).1.indexFile).lookup
          "aceternity:Other" =
        List.lookup "aceternity:Other" [("aceternity:Other", sampleExternalEntry)]) ∧
    ((scan_shadcn_component "Card" [("Card", sampleShadcnEntry)] (Except.error "unused")
          (Except.ok ()) (Except.ok ()) "2025-01-01T00:00:00.000Z"
          sampleDiskStore).1.indexFile =
        FileContent.parsed (upsertA ("shadcn:" ++ componentNameKey "Card")
          (shadcnIndexEntry (displayNameForNormalization "Card")
            "2025-01-01T00:00:00.000Z" sampleShadcnEntry)
          [("aceternity:Other", sampleExternalEntry)]) ∧
      (readIndexData (scan_shadcn_component "Card" [("Card", sampleShadcnEntry)]
          (Except.error "unused") (Except.ok ()) (Except.ok ())
          "2025-01-01T00:00:00.000Z" sampleDiskStore).1.indexFile).lookup
          "aceternity:Other" =
        List.lookup "aceternity:Other" [("aceternity:Other", sampleExternalEntry)]) :=
  have h := c6_upsert_preserves_other_entries "3d pin" none [("3dPin", "3d-pin")]
    "3d-pin" sampleAceternityData "2025-01-01T00:00:00.000Z" sampleDiskStore
    [("aceternity:Other", sampleExternalEntry)]
    "Card" [("Card", sampleShadcnEntry)] (Except.error "unused") sampleShadcnEntry
    "2025-01-01T00:00:00.000Z" sampleDiskStore
    [("aceternity:Other", sampleExternalEntry)]
    (by decide) (by decide) rfl (by decide) (by decide) rfl
  ⟨⟨h.1.1, h.1.2 "aceternity:Other" (by decide)⟩,
   ⟨h.2.1, h.2.2 "aceternity:Other" (by decide)⟩⟩

theorem shadcnIndexEntry_filePath (dn date : String) (e : ShadcnRegistryEntry) :
    (shadcnIndexEntry dn date e).filePath = "shadcn/" ++ e.name ++ ".json" := rfl

/-- The rendered shadcn prompt always contains the CLI installation command
parameterized by the indexed record's slug. -/
theorem shadcnPrompt_contains_cmd (raw : String) (info : IndexedComponentInfo)
    (d : FullComponentData) :
    ∃ pre post, shadcnPrompt raw info d =
      pre ++ ("npx shadcn-ui@latest add " ++ info.slug) ++ post := by
  refine ⟨shadcnPromptIntro (jsOptOr d.title (jsFalsyOr d.name raw)) ++ "```bash\n",
    "\n```\n\n" ++ shadcnPromptRest (jsOptOr d.title (jsFalsyOr d.name raw)) d, ?_⟩
  unfold shadcnPrompt shadcnPromptCmd
  simp only [sAppend_assoc]

/-- C9: for every successful inline-shape (shadcn) scan, the persisted
payload's file entries all carry the locally synthesized placeholder content
(no literal component source is stored), and the prompt subsequently
generated by `get_shadcn_component_prompt` contains the CLI installation
command parameterized by the component's slug. -/
theorem c9_inline_scan_placeholder_and_prompt (raw : String)
    (reg : List (String × ShadcnRegistryEntry))
    (ro : Except String (FetchedJson ShadcnRegistryEntry))
    (registryEntry : ShadcnRegistryEntry) (date : String) (st : Store)
    (hraw : raw ≠ "")
    (hfound : (if reg.isEmpty then refreshShadcnRegistryCache reg ro else reg).lookup
        (componentNameKey raw) = some registryEntry) :
    (scan_shadcn_component raw reg ro (Except.ok ()) (Except.ok ()) date st).2.isSuccess
        = true ∧
    (∃ d, ((scan_shadcn_component raw reg ro (Except.ok ()) (Except.ok ())
          date st).1.payloadFiles).lookup ("shadcn/" ++ registryEntry.name ++ ".json") =
        some (PayloadFile.parsed d) ∧
      d.files.all
        (fun fl => fl.content == shadcnPlaceholderContent fl.path registryEntry.name)
        = true) ∧
    (∃ promptText pre post,
      get_shadcn_component_prompt raw
          (scan_shadcn_component raw reg ro (Except.ok ()) (Except.ok ()) date st).1 =
        ScanOutcome.success promptText ∧
      promptText = pre ++ ("npx shadcn-ui@latest add " ++ registryEntry.name) ++ post) := by
  rw [scan_shadcn_component_ok raw reg ro registryEntry date st hraw hfound]
  refine ⟨rfl,
    ⟨shadcnStoredComponentData (displayNameForNormalization raw) registryEntry, ?_, ?_⟩,
    ?_⟩
  · exact lookup_upsertA_self _ _ _
  · rw [List.all_eq_true]
    intro fl hfl
    unfold shadcnStoredComponentData at hfl
    rcases List.mem_map.mp hfl with ⟨f, hf, rfl⟩
    exact beq_self_eq_true _
  · have hget : get_shadcn_component_prompt raw
        ({ memCache := upsertA ("shadcn:" ++ componentNameKey raw)
              (shadcnIndexEntry (displayNameForNormalization raw) date registryEntry)
              st.memCache
           indexFile := FileContent.parsed (upsertA ("shadcn:" ++ componentNameKey raw)
              (shadcnIndexEntry (displayNameForNormalization raw) date registryEntry)
              (readIndexData st.indexFile))
           payloadFiles := upsertA ("shadcn/" ++ registryEntry.name ++ ".json")
              (PayloadFile.parsed
                (shadcnStoredComponentData (displayNameForNormalization raw) registryEntry))
              st.payloadFiles } : Store) =
        ScanOutcome.success (shadcnPrompt raw
          (shadcnIndexEntry (displayNameForNormalization raw) date registryEntry)
          (shadcnStoredComponentData (displayNameForNormalization raw) registryEntry)) := by
      unfold get_shadcn_component_prompt
      rw [if_neg hraw]
      simp only [lookup_upsertA_self, shadcnIndexEntry_filePath]
    refine ⟨shadcnPrompt raw
      (shadcnIndexEntry (displayNameForNormalization raw) date registryEntry)
      (shadcnStoredComponentData (displayNameForNormalization raw) registryEntry),
      ?_⟩
    rcases shadcnPrompt_contains_cmd raw
      (shadcnIndexEntry (displayNameForNormalization raw) date registryEntry)
      (shadcnStoredComponentData (displayNameForNormalization raw) registryEntry)
      with ⟨pre, post, hp⟩
    exact ⟨pre, post, hget, hp⟩

theorem c9_inline_scan_placeholder_and_prompt_witness :
    (scan_shadcn_component "Card" [("Card", sampleShadcnEntry)] (Except.error "unused")
        (Except.ok ()) (Except.ok ()) "2025-01-02T00:00:00.000Z"
        Store.empty).2.isSuccess = true ∧
    (∃ d, ((scan_shadcn_component "Card" [("Card", sampleShadcnEntry)]
          (Except.error "unused") (Except.ok ()) (Except.ok ())
          "2025-01-02T00:00:00.000Z" Store.empty).1.payloadFiles).lookup
          ("shadcn/" ++ sampleShadcnEntry.name ++ ".json") =
        some (PayloadFile.parsed d) ∧
      d.files.all
        (fun fl => fl.content == shadcnPlaceholderContent fl.path sampleShadcnEntry.name)
        = true) ∧
    (∃ promptText pre post,
      get_shadcn_component_prompt "Card"
          (scan_shadcn_component "Card" [("Card", sampleShadcnEntry)]
            (Except.error "unused") (Except.ok ()) (Except.ok ())
            "2025-01-02T00:00:00.000Z" Store.empty).1 =
        ScanOutcome.success promptText ∧
      promptText =
        pre ++ ("npx shadcn-ui@latest add " ++ sampleShadcnEntry.name) ++ post) :=
  c9_inline_scan_placeholder_and_prompt "Card" [("Card", sampleShadcnEntry)]
    (Except.error "unused") sampleShadcnEntry "2025-01-02T00:00:00.000Z" Store.empty
    (by decide) (by decide)
